import Mathlib

/-!
Verification development for the Sandeza voice-call support agent.

The repository is a Python service (FastAPI + Vonage telephony) with two
parallel implementations: the main one under `app/` and an older, simpler
variant under `voice-agent/app/`.  This file gives a shallow embedding of
the per-call session store, the batch ASR turn pipeline
(`voice.handle_voice_asr`), the streaming turn-taking logic
(`groq.DeepgramStreamer` and `main.on_speech_ended` /
`main.process_and_respond`), the background action executor
(`main.execute_ai_actions`), and the contact-name handling fragments of
`voice.handle_voice_answer`, `voice.background_freshdesk_lookup` and
`groq.agent_response`.

Conventions of the embedding:
  * Python dicts that hold the per-call session become a record
    (`CallState`) whose possibly-absent keys are `Option`-valued; the
    process-wide call map becomes an association list (`Store`).
  * Network collaborators (Whisper/Deepgram ASR, the LLM, Freshdesk, the
    Vonage call-control API) are replaced by oracles that supply their
    return values, and every collaborator invocation is recorded in a
    trace.  In the batch handler each trace entry also records the value
    of the session `processing` flag at the moment of the call.
  * Python string operations (`strip`, `lower`, `capitalize`,
    `str.replace`, `split`, the concrete `re.search` / `re.sub` /
    `re.findall` patterns used by the code) are implemented character by
    character over ASCII text, which is the alphabet the service deals
    with.
  * Timing (silence timers, sleeps) is abstracted into explicit events;
    the single-threaded embedding makes each handler a pure function of
    its inputs, which is faithful because the service serializes all
    session mutation on one event loop.
-/

namespace SandezaVoice

/-! ## Python-style ASCII string primitives -/

/-- Characters Python `str.strip()` removes, and `\s` matches (ASCII). -/
def is_py_space (c : Char) : Bool :=
  c = ' ' || c = '\t' || c = '\n' || c = '\r' || c = '\x0b' || c = '\x0c'

def is_ascii_digit (c : Char) : Bool := '0' ≤ c && c ≤ '9'

def is_ascii_alpha (c : Char) : Bool :=
  ('a' ≤ c && c ≤ 'z') || ('A' ≤ c && c ≤ 'Z')

/-- `\w` (ASCII): letters, digits, underscore. -/
def is_word_char (c : Char) : Bool :=
  is_ascii_alpha c || is_ascii_digit c || c = '_'

def ascii_lower_char (c : Char) : Char :=
  if 'A' ≤ c && c ≤ 'Z' then Char.ofNat (c.toNat + 32) else c

def ascii_upper_char (c : Char) : Char :=
  if 'a' ≤ c && c ≤ 'z' then Char.ofNat (c.toNat - 32) else c

/-- Python `str.lower()` (ASCII). -/
def ascii_lower (s : String) : String := String.mk (s.data.map ascii_lower_char)

/-- Python `str.upper()` (ASCII). -/
def ascii_upper (s : String) : String := String.mk (s.data.map ascii_upper_char)

/-- Python `str.strip()`: drop leading and trailing whitespace. -/
def py_strip (s : String) : String :=
  String.mk (((s.data.dropWhile is_py_space).reverse.dropWhile is_py_space).reverse)

/-- Python `str.capitalize()`: first character upper-cased, the rest lower-cased. -/
def py_capitalize (s : String) : String :=
  match s.data with
  | [] => ""
  | c :: t => String.mk (ascii_upper_char c :: t.map ascii_lower_char)

/-- `re.sub(r'[^\w\s]', '', s)`: keep only word characters and whitespace. -/
def strip_non_word (s : String) : String :=
  String.mk (s.data.filter (fun c => is_word_char c || is_py_space c))

/-- `s.replace(" ", "")` as used by the UPDATE_NAME placeholder checks. -/
def remove_spaces (s : String) : String :=
  String.mk (s.data.filter (fun c => c ≠ ' '))

/-- `''.join(filter(str.isdigit, s))` from the transfer-target cleanup. -/
def keep_digits (s : String) : String :=
  String.mk (s.data.filter is_ascii_digit)

/-- Whether the string contains an ASCII letter: `re.search(r'[a-zA-Z]', s)`. -/
def has_letter (s : String) : Bool := s.data.any is_ascii_alpha

/-- `re.match(r'^\+?\d+$', s)`: an optional plus sign followed by one or
more digits, spanning the whole string. -/
def phone_like (s : String) : Bool :=
  match s.data with
  | [] => false
  | '+' :: rest => rest ≠ [] && rest.all is_ascii_digit
  | l => l.all is_ascii_digit

def digits_to_nat (l : List Char) : Nat :=
  l.foldl (fun acc c => acc * 10 + (c.toNat - '0'.toNat)) 0

/-- Python `int(s)` on an already-stripped string: optional sign then at
least one digit, else a `ValueError` (modelled as `none`). -/
def parse_int_py (s : String) : Option Int :=
  match s.data with
  | [] => none
  | '+' :: rest => if rest ≠ [] && rest.all is_ascii_digit then some (digits_to_nat rest) else none
  | '-' :: rest => if rest ≠ [] && rest.all is_ascii_digit then some (-(digits_to_nat rest : Int)) else none
  | l => if l.all is_ascii_digit then some (digits_to_nat l) else none

/-! ## A tiny matching engine for the concrete `re` patterns of the code.

Every pattern the service uses is a literal prefix followed by one of a
handful of capture shapes.  A matcher takes the text at a candidate start
position and either fails or returns its payload together with the text
after the match.  `re.search` tries successive start positions;
`re.sub` replaces every non-overlapping match; `re.findall` collects
them.  All loops carry explicit fuel (the text length suffices because a
successful match always consumes at least one character). -/

def list_starts_with : List Char → List Char → Bool
  | [], _ => true
  | _ :: _, [] => false
  | p :: ps, c :: cs => p = c && list_starts_with ps cs

/-- Consume a literal; return the remaining text on success. -/
def match_lit (pat : List Char) (l : List Char) : Option (List Char) :=
  if list_starts_with pat l then some (l.drop pat.length) else none

/-- `(.*?)\]`: shortest run of non-newline characters up to a `]`. -/
def try_cap_dot (l : List Char) : Option (List Char × List Char) :=
  let cap := l.takeWhile (fun c => c ≠ ']' && c ≠ '\n')
  match l.drop cap.length with
  | ']' :: rest => some (cap, rest)
  | _ => none

/-- `(\d+)\]`: one or more digits up to a `]`. -/
def try_cap_digits (l : List Char) : Option (List Char × List Char) :=
  let cap := l.takeWhile is_ascii_digit
  if cap = [] then none
  else
    match l.drop cap.length with
    | ']' :: rest => some (cap, rest)
    | _ => none

/-- `([^\]]+)\]`: one or more non-`]` characters up to a `]`. -/
def try_cap_nonbracket (l : List Char) : Option (List Char × List Char) :=
  let cap := l.takeWhile (fun c => c ≠ ']')
  if cap = [] then none
  else
    match l.drop cap.length with
    | ']' :: rest => some (cap, rest)
    | _ => none

/-- `\s*([^\]]+)\]`: greedy whitespace, then at least one non-`]`
character, up to a `]`.  When everything before the `]` is whitespace the
regex engine backtracks so that the group holds exactly the last space. -/
def try_cap_ws_group (l : List Char) : Option (List Char × List Char) :=
  let total := l.takeWhile (fun c => c ≠ ']')
  match l.drop total.length with
  | ']' :: rest =>
      if total = [] then none
      else
        let ws := total.takeWhile is_py_space
        let tail := total.drop ws.length
        if tail = [] then some (total.drop (total.length - 1), rest)
        else some (tail, rest)
  | _ => none

/-- One `re.search` step: try the matcher at each successive start. -/
def search_aux {α : Type} (m : List Char → Option (α × List Char)) :
    Nat → List Char → Option α
  | 0, _ => none
  | _ + 1, [] => (m []).map Prod.fst
  | fuel + 1, l@(_ :: t) =>
      match m l with
      | some (a, _) => some a
      | none => search_aux m fuel t

def search_pat {α : Type} (m : List Char → Option (α × List Char)) (s : String) : Option α :=
  search_aux m (s.data.length + 1) s.data

/-- `re.sub(pattern, '', s)`: drop every non-overlapping match. -/
def sub_aux {α : Type} (m : List Char → Option (α × List Char)) :
    Nat → List Char → List Char
  | 0, l => l
  | fuel + 1, l =>
      match m l with
      | some (_, rest) => sub_aux m fuel rest
      | none =>
          match l with
          | [] => []
          | c :: t => c :: sub_aux m fuel t

def sub_pat {α : Type} (m : List Char → Option (α × List Char)) (s : String) : String :=
  String.mk (sub_aux m (s.data.length + 1) s.data)

/-- `re.findall`: collect every non-overlapping match left to right. -/
def findall_aux {α : Type} (m : List Char → Option (α × List Char)) :
    Nat → List Char → List α
  | 0, _ => []
  | _ + 1, [] => match m [] with | some (a, _) => [a] | none => []
  | fuel + 1, l@(_ :: t) =>
      match m l with
      | some (a, rest) => a :: findall_aux m fuel rest
      | none => findall_aux m fuel t

def findall_pat {α : Type} (m : List Char → Option (α × List Char)) (s : String) : List α :=
  findall_aux m (s.data.length + 1) s.data

/-- Python `pat in s` for a literal substring. -/
def contains_sub (s pat : String) : Bool :=
  (search_pat (fun l => (match_lit pat.data l).map (fun r => ((), r))) s).isSome

/-- Python `s.replace(pat, "")` for a literal substring. -/
def erase_sub (s pat : String) : String :=
  sub_pat (fun l => (match_lit pat.data l).map (fun r => ((), r))) s

/-! ## Session store (`app/state.py` and `voice-agent/app/state.py`)

A transcript entry is a `{"role": ..., "content": ...}` dict. -/

structure Msg where
  role : String
  content : String
deriving DecidableEq

/-- Python `l[-n:]`: the trailing window of at most `n` elements. -/
def takeLast {α : Type} (n : Nat) (l : List α) : List α :=
  l.drop (l.length - n)

/-- `ConversationState.append_history` body in `app/state.py`:
`state["history"].append({...}); state["history"] = state["history"][-50:]`. -/
def append_history_entry (h : List Msg) (m : Msg) : List Msg :=
  takeLast 50 (h ++ [m])

/-- The same method in the older `voice-agent/app/state.py`, which keeps
only the last 12 messages (`state["history"][-12:]`). -/
def append_history_entry_va (h : List Msg) (m : Msg) : List Msg :=
  takeLast 12 (h ++ [m])

/-- The per-call session dict.  Keys that some creation paths leave out
are `Option`-valued (`none` models both a missing key and Python `None`,
which `.get` does not distinguish). -/
structure CallState where
  history : List Msg
  processing : Bool
  ticket_id : Option String
  phone : Option String
  sentiment : Option String
  transfer_requested : Option Bool
  transfer_confirmed : Option Bool
  awaiting_confirmation : Option String
  contact_id : Option Nat
  contact_name : Option String
  recent_tickets : List Nat
  lookup_done : Option Bool
  bot_number : Option String
  region_url : Option String
  /-- the `"from"` key, read by `execute_ai_actions` but never written by
  any creation path of this code base -/
  from_number : Option String
  status : Option String
deriving DecidableEq

/-- The defaults `ConversationState.get_call_state` installs on first
access (`app/state.py`). -/
def default_call_state : CallState where
  history := []
  processing := false
  ticket_id := none
  phone := some ""
  sentiment := some "Neutral"
  transfer_requested := some false
  transfer_confirmed := some false
  awaiting_confirmation := none
  contact_id := none
  contact_name := none
  recent_tickets := []
  lookup_done := none
  bot_number := none
  region_url := none
  from_number := none
  status := none

/-- The process-wide `self.calls` dict, keyed by call uuid. -/
abbrev Store : Type := List (String × CallState)

def Store.lookup : Store → String → Option CallState
  | [], _ => none
  | (k, v) :: t, u => if k = u then some v else Store.lookup t u

/-- Dict assignment `self.calls[uuid] = state`. -/
def Store.insert : Store → String → CallState → Store
  | [], u, v => [(u, v)]
  | (k, w) :: t, u, v => if k = u then (u, v) :: t else (k, w) :: Store.insert t u v

/-- `ConversationState.get_call_state`: creates the entry with defaults on
first access (get-or-create), then returns it. -/
def get_call_state (s : Store) (u : String) : Store × CallState :=
  match s.lookup u with
  | some cs => (s, cs)
  | none => (s.insert u default_call_state, default_call_state)

/-- `ConversationState.set_call_state`. -/
def set_call_state (s : Store) (u : String) (cs : CallState) : Store :=
  s.insert u cs

/-- `ConversationState.append_history` on the store. -/
def append_history (s : Store) (u : String) (role content : String) : Store :=
  let (s1, cs) := get_call_state s u
  set_call_state s1 u { cs with history := append_history_entry cs.history ⟨role, content⟩ }

/-! ## Streaming turn-taking (`groq.DeepgramStreamer`)

State of the streamer that matters for turn boundaries: the current
utterance accumulator and whether a silence timer is pending.  Real-time
silence is abstracted into an explicit `timerElapse` event, which can
only have an effect while a timer is pending (a cancelled
`threading.Timer` never calls back). -/

structure DGState where
  current_utterance : String
  final_transcript : String
  timerPending : Bool
deriving DecidableEq

def dg_initial : DGState := ⟨"", "", false⟩

/-- Python truthiness test `transcript and len(transcript.strip()) > 0`. -/
def nonblank_transcript (t : String) : Bool :=
  t ≠ "" && (py_strip t).length > 0

/-- `DeepgramStreamer._process_result`: a final result is appended to the
accumulator (stripped, plus one space) and (re)starts the silence timer;
a non-empty interim result cancels the pending timer and fires the
barge-in callback when longer than 3 characters.  Returns the new state
and whether barge-in fired. -/
def process_result (st : DGState) (transcript : String) (is_final : Bool) :
    DGState × Bool :=
  if nonblank_transcript transcript then
    if is_final then
      ({ st with
          current_utterance := st.current_utterance ++ py_strip transcript ++ " "
          final_transcript := st.final_transcript ++ transcript ++ " "
          timerPending := true }, false)
    else
      ({ st with timerPending := false }, (py_strip transcript).length > 3)
  else (st, false)

/-- `DeepgramStreamer._on_silence_detected`: fires only on a non-empty
accumulator, emits it as the finished utterance, and clears it. -/
def on_silence_detected (st : DGState) : DGState × Option String :=
  if st.current_utterance = "" then (st, none)
  else ({ st with current_utterance := "" }, some st.current_utterance)

inductive DGEvent
  | result (transcript : String) (is_final : Bool)
  | timerElapse
deriving DecidableEq

/-- One streamer step; the second component is the emitted utterance, if
any.  A timer that is not pending was cancelled and never fires. -/
def dg_step (st : DGState) (e : DGEvent) : DGState × Option String :=
  match e with
  | .result t f => ((process_result st t f).1, none)
  | .timerElapse =>
      if st.timerPending then on_silence_detected { st with timerPending := false }
      else (st, none)

/-- Run a sequence of streamer events, collecting emitted utterances. -/
def dg_run : DGState → List DGEvent → DGState × List String
  | st, [] => (st, [])
  | st, e :: es =>
      let (st1, em) := dg_step st e
      let (st2, ems) := dg_run st1 es
      (st2, (match em with | some s => [s] | none => []) ++ ems)

/-! ## Collaborator oracles and effect traces -/

/-- Environment variables consulted by the handlers.  `AGENT_NUMBER` is
read with a different hard-coded default in `voice.py` and in
`main.py`. -/
structure Env where
  agent_number : Option String

/-- `voice.py`: `AGENT_NUMBER = os.getenv("AGENT_NUMBER", "14702834062")`. -/
def voice_agent_number (env : Env) : String := env.agent_number.getD "14702834062"

/-- `main.py` line 217: `os.getenv("AGENT_NUMBER", "18335645478")`. -/
def main_agent_number (env : Env) : String := env.agent_number.getD "18335645478"

/-- Every network collaborator call the embedded handlers can make.
Payloads record the arguments that matter for the claims. -/
inductive Effect
  /-- `transcribe_whisper` (invoked only when audio is present) -/
  | transcribeAudio
  /-- `fetch_combined_knowledge` -/
  | kbSearch (query : String)
  /-- `agent_response`, with the context that is surfaced to the model -/
  | llmCall (issue : String) (active_ticket_id : Option String) (contact_name : Option String)
  /-- `freshdesk.create_ticket` -/
  | createTicket (desc : String)
  /-- `freshdesk.update_ticket_status(id, 4)` -/
  | resolveTicket (id : Int)
  /-- `freshdesk.update_contact_name` -/
  | renameContact (contact_id : Nat) (name : String)
  /-- `freshdesk.create_contact` -/
  | createContact (name : String) (phone : String)
  /-- `voice.transfer_to_agent` (streaming executor only) -/
  | transferCall (dest : String) (from_number : String)
  /-- `voice.hangup_call`, after the length-based delay -/
  | hangupCall (text_len : Nat)
  /-- `voice.inject_vonage_tts` -/
  | ttsInject (text : String)
  /-- `asyncio.create_task(execute_ai_actions(...))` -/
  | spawnActions (tags : List (String × String))
deriving DecidableEq

def Effect.isLlmCall : Effect → Bool
  | .llmCall _ _ _ => true
  | _ => false

def Effect.isCreateTicket : Effect → Bool
  | .createTicket _ => true
  | _ => false

/-- Outcome of the `transcribe_whisper` call inside the handler's
`try` block: it can raise (caught as `[ASR_ERROR]`) or return an optional
transcript. -/
inductive TranscribeOutcome
  | raises
  | returns (r : Option String)
deriving DecidableEq

/-- Oracle for one batch turn: the webhook payload shape and every
collaborator return value the turn may consume. -/
structure AsrOracle where
  audio_present : Bool
  recording_url_present : Bool
  transcribe : TranscribeOutcome
  kb_result : String
  llm_reply : String
  create_ticket_result : Option String
deriving DecidableEq

/-! ## Batch pipeline helpers (`voice.handle_voice_asr`) -/

/-- `asr_error_tags = {"[ASR_FAILED]", "[ASR_ERROR]", "[NO_AUDIO]"}`. -/
def asr_error_tags : List String := ["[ASR_FAILED]", "[ASR_ERROR]", "[NO_AUDIO]"]

def is_sentinel (s : String) : Bool := asr_error_tags.contains s

/-- The speech-text determination block (voice.py lines 443-479): no
audio yields `[NO_AUDIO]`; a raised transcription exception yields
`[ASR_ERROR]`; an empty or `None` transcript yields `[ASR_FAILED]`. -/
def determine_speech_text (o : AsrOracle) : String :=
  if !(o.audio_present || o.recording_url_present) then "[NO_AUDIO]"
  else
    match o.transcribe with
    | .raises => "[ASR_ERROR]"
    | .returns none => "[ASR_FAILED]"
    | .returns (some t) => if t = "" then "[ASR_FAILED]" else t

def noise_artifacts : List String :=
  ["hau", "uh", "um", "the wind", "background noise", "[noise]", "disturbance"]

def short_whitelist : List String :=
  ["yes", "no", "ok", "help", "yeah", "yep", "sure", "yup", "hi", "hey"]

/-- The noise filter (voice.py lines 489-505), applied only to
non-sentinel text: short non-whitelisted or artifact utterances become
`[SILENCE]`. -/
def noise_filter (speech : String) : String :=
  let cleaned := strip_non_word (ascii_lower (py_strip speech))
  let is_noise :=
    if speech ≠ "" && speech.length < 5 && !(short_whitelist.contains cleaned) then true
    else noise_artifacts.contains cleaned
  if speech = "" || speech.length < 2 || is_noise then "[SILENCE]" else speech

def confirmations : List String :=
  ["yes", "no", "okay", "ok", "yep", "sure", "correct", "perfect", "done", "completed"]

/-- The fixed fallback sentence of the ASR-failure short circuit. -/
def asr_apology : String :=
  "I\x27m sorry, I couldn\x27t hear you clearly due to a connection issue. Could you please repeat that?"

/-! ### The concrete tag patterns of the batch pipeline -/

def m_sentiment_search (l : List Char) : Option (List Char × List Char) := do
  let r ← match_lit "[SENTIMENT:".data l
  try_cap_ws_group r

def m_sentiment_sub (l : List Char) : Option (Unit × List Char) := do
  let r ← match_lit "[SENTIMENT:".data l
  let (_, rest) ← try_cap_dot r
  pure ((), rest)

def m_create (l : List Char) : Option (List Char × List Char) := do
  let r ← match_lit "[ACTION: CREATE_TICKET: ".data l
  try_cap_dot r

def m_use (l : List Char) : Option (List Char × List Char) := do
  let r ← match_lit "[ACTION: USE_TICKET: ".data l
  try_cap_digits r

def m_resolve (l : List Char) : Option (List Char × List Char) := do
  let r ← match_lit "[ACTION: RESOLVE_TICKET: ".data l
  try_cap_digits r

def m_update_name (l : List Char) : Option (List Char × List Char) := do
  let r ← match_lit "[ACTION: UPDATE_NAME: ".data l
  try_cap_dot r

/-- `\[ACTION: TRANSFER(?::\s*(\d+))?\]`: the optional group is tried
first; the payload is the captured digits when present. -/
def m_transfer (l : List Char) : Option (Option String × List Char) := do
  let r ← match_lit "[ACTION: TRANSFER".data l
  match r with
  | ':' :: r2 =>
      let ws := r2.takeWhile is_py_space
      let after := r2.drop ws.length
      let ds := after.takeWhile is_ascii_digit
      if ds = [] then none
      else
        match after.drop ds.length with
        | ']' :: rest => some (some (String.mk ds), rest)
        | _ => none
  | ']' :: rest => some (none, rest)
  | _ => none

/-- Result of the sequential tag-detection steps 3a-3f of
`handle_voice_asr`, run over the raw reply.  `cleaned` is the reply after
every removal, the text that is actually spoken. -/
structure ParsedActions where
  sentiment : Option String
  create_desc : Option String
  use_id : Option String
  resolve_id : Option Nat
  new_name : Option String
  should_hangup : Bool
  should_wait : Bool
  transfer : Option (Option String)
  cleaned : String
deriving DecidableEq

/-- Steps 3a-3f of `handle_voice_asr` as a pure function of the reply
text.  The only session dependence of the detection itself is the
`call_state.get("contact_id")` conjunct guarding the UPDATE_NAME branch
(when it is false the tag is left in the spoken text, exactly as in the
source). -/
def parse_reply_actions (has_contact_id : Bool) (r0 : String) : ParsedActions :=
  -- 3a sentiment
  let sentiment := (search_pat m_sentiment_search r0).map
    (fun g => py_capitalize (py_strip (String.mk g)))
  let r1 := if (search_pat m_sentiment_search r0).isSome
    then py_strip (sub_pat m_sentiment_sub r0) else r0
  -- 3b create
  let create_desc := (search_pat m_create r1).map String.mk
  let r2 := if (search_pat m_create r1).isSome
    then py_strip (sub_pat m_create r1) else r1
  -- 3g use
  let use_id := (search_pat m_use r2).map String.mk
  let r3 := if (search_pat m_use r2).isSome
    then py_strip (sub_pat m_use r2) else r2
  -- 3b resolve
  let resolve_id := (search_pat m_resolve r3).map digits_to_nat
  let r4 := if (search_pat m_resolve r3).isSome
    then py_strip (sub_pat m_resolve r3) else r3
  -- 3c update name (sub only inside `if name_match and contact_id`)
  let (new_name, r5) :=
    if has_contact_id then
      match search_pat m_update_name r4 with
      | some g => (some (py_strip (String.mk g)), py_strip (sub_pat m_update_name r4))
      | none => (none, r4)
    else (none, r4)
  -- 3d hangup
  let should_hangup := contains_sub r5 "[ACTION: HANGUP]"
  let r6 := if should_hangup then py_strip (erase_sub r5 "[ACTION: HANGUP]") else r5
  -- 3e wait
  let should_wait := contains_sub r6 "[ACTION: WAIT]"
  let r7 := if should_wait then py_strip (erase_sub r6 "[ACTION: WAIT]") else r6
  -- 3f transfer
  let transfer := search_pat m_transfer r7
  let r8 := if (search_pat m_transfer r7).isSome
    then py_strip (sub_pat m_transfer r7) else r7
  { sentiment, create_desc, use_id, resolve_id, new_name,
    should_hangup, should_wait, transfer, cleaned := r8 }

/-- `is_placeholder` check of step 3c: current name missing, empty,
"unknown" (case-insensitive), or an optional-plus digit string once
spaces are removed. -/
def is_placeholder_name (cur : Option String) : Bool :=
  match cur with
  | none => true
  | some c =>
      c = "" || ascii_lower c = "unknown" || phone_like (remove_spaces c)

/-- Acceptance check of step 3c for the proposed new name. -/
def accepts_new_name (nm : String) : Bool :=
  ascii_lower nm ≠ "unknown" && !phone_like (remove_spaces nm)

/-- Transfer target resolution of step 3f: a captured number is kept when
it has at least seven digits, otherwise the configured agent number. -/
def resolve_transfer_target (env : Env) (payload : Option String) : String :=
  match payload with
  | none => voice_agent_number env
  | some raw =>
      let clean := keep_digits raw
      if clean.length ≥ 7 then clean else voice_agent_number env

/-- E.164 touch-up used when building the connect action. -/
def fmt_plus (s : String) : String :=
  if s.startsWith "+" then s else "+" ++ s

/-! ## NCCO responses -/

/-- The call-control instructions the handler returns.  `endOnSilence`
thresholds are represented in tenths of a second (5.0 / 1.5 / 1.2 s
become 50 / 15 / 12); `eventUrl` fields, being constants derived from
`PUBLIC_URL`, are omitted. -/
inductive NccoAction
  | talk (text : String) (bargeIn : Bool)
  | input (endOnSilenceTenths : Nat)
  | connect (fromNumber : String) (toNumber : String)
  | hangup
deriving DecidableEq

inductive AsrResponse
  | notFound
  | actions (ncco : List NccoAction)
deriving DecidableEq

structure AsrRunResult where
  store : Store
  response : AsrResponse
  trace : List (Effect × Bool)
deriving DecidableEq

/-- Python `not d` on the dict returned by `get_call_state` is always
`False`: the store installs the non-empty default dict on first access,
so the not-found branch of the handler can never be taken. -/
def call_state_falsy (_ : CallState) : Bool := false

/-- The `while not call_state.get("lookup_done") and wait_count < 25`
loop.  Each iteration re-fetches the session; in the single-threaded
embedding no concurrent writer exists, so the re-fetch returns the same
entry. -/
def wait_lookup_loop : Nat → Store → String → CallState → CallState
  | 0, _, _, cs => cs
  | n + 1, s, u, cs =>
      if cs.lookup_done.getD false then cs
      else wait_lookup_loop n s u (get_call_state s u).2

/-! ### Applying the detected actions (voice.py lines 557-609)

The session, the store and the effect trace are threaded through the
five state-touching steps.  Each trace entry records the `processing`
flag at the moment of the collaborator call. -/

structure Pipe where
  cs : CallState
  store : Store
  trace : List (Effect × Bool)

/-- 3a: apply the detected sentiment to the session. -/
def step_sentiment (u : String) (pa : ParsedActions) (p : Pipe) : Pipe :=
  match pa.sentiment with
  | some v =>
      let c := { p.cs with sentiment := some v }
      { p with cs := c, store := set_call_state p.store u c }
  | none => p

/-- 3b: CREATE_TICKET — unconditionally calls the ticketing collaborator
and overwrites the session ticket id with whatever comes back (including
`None` on failure); there is no check against an already-attached id. -/
def step_create (u : String) (o : AsrOracle) (pa : ParsedActions) (p : Pipe) : Pipe :=
  match pa.create_desc with
  | some d =>
      let c := { p.cs with ticket_id := o.create_ticket_result }
      { cs := c, store := set_call_state p.store u c,
        trace := p.trace ++ [(Effect.createTicket d, p.cs.processing)] }
  | none => p

/-- 3g: USE_TICKET — adopt an existing ticket id. -/
def step_use (u : String) (pa : ParsedActions) (p : Pipe) : Pipe :=
  match pa.use_id with
  | some i =>
      let c := { p.cs with ticket_id := some i }
      { p with cs := c, store := set_call_state p.store u c }
  | none => p

/-- 3b': RESOLVE_TICKET — mark the captured ticket resolved. -/
def step_resolve (pa : ParsedActions) (p : Pipe) : Pipe :=
  match pa.resolve_id with
  | some n =>
      { p with trace := p.trace ++ [(Effect.resolveTicket n, p.cs.processing)] }
  | none => p

/-- 3c: UPDATE_NAME — applied only when the current name is
placeholder-like and the new one is acceptable; `new_name` is already
gated on a present contact id by the detection step, so the `.getD 0`
default for the rename payload is unreachable. -/
def step_update_name (u : String) (pa : ParsedActions) (p : Pipe) : Pipe :=
  match pa.new_name with
  | some nm =>
      if is_placeholder_name p.cs.contact_name && accepts_new_name nm then
        let c := { p.cs with contact_name := some nm }
        { cs := c, store := set_call_state p.store u c,
          trace := p.trace ++ [(Effect.renameContact (p.cs.contact_id.getD 0) nm, p.cs.processing)] }
      else p
  | none => p

def apply_reply_actions (u : String) (o : AsrOracle) (pa : ParsedActions) (p : Pipe) : Pipe :=
  step_update_name u pa (step_resolve pa (step_use u pa (step_create u o pa (step_sentiment u pa p))))

/-- The ASR-failure short circuit of `handle_voice_asr` (voice.py lines
512-524): fixed apology, continue listening, clear `processing`, no
knowledge-base or generation call. -/
def asr_sentinel_reply (uuid : String) (store3 : Store) (cs3 : CallState)
    (traceT : List (Effect × Bool)) : AsrRunResult :=
  let cs4 := { cs3 with processing := false }
  let store4 := set_call_state store3 uuid cs4
  ⟨store4, .actions [.talk asr_apology true, .input 15], traceT⟩

/-- Knowledge search, generation and action application of the normal
turn: the session/store/trace pipe after voice.py lines 526-609. -/
def asr_turn_pipe (env : Env) (o : AsrOracle) (uuid : String) (store3 : Store)
    (cs3 : CallState) (traceT : List (Effect × Bool)) (speech : String) : Pipe :=
  let query_clean := strip_non_word (ascii_lower (py_strip speech))
  let traceK :=
    if speech.length < 10 || confirmations.contains query_clean then traceT
    else traceT ++ [(Effect.kbSearch speech, cs3.processing)]
  let active_id := cs3.ticket_id
  let reply := o.llm_reply
  let traceL := traceK ++ [(Effect.llmCall speech active_id cs3.contact_name, cs3.processing)]
  let cs4 := { cs3 with history := append_history_entry cs3.history ⟨"assistant", reply⟩ }
  let store4 := set_call_state store3 uuid cs4
  let pa := parse_reply_actions cs4.contact_id.isSome reply
  apply_reply_actions uuid o pa ⟨cs4, store4, traceL⟩

/-- The normal turn of `handle_voice_asr` (voice.py lines 526-698),
entered after the user turn has been appended: the pipe above, then
response building and the final `processing := False` write-back. -/
def asr_normal_turn (env : Env) (o : AsrOracle) (uuid : String) (store3 : Store)
    (cs3 : CallState) (traceT : List (Effect × Bool)) (speech : String) : AsrRunResult :=
  let pa := parse_reply_actions cs3.contact_id.isSome o.llm_reply
  let p := asr_turn_pipe env o uuid store3 cs3 traceT speech
  let should_transfer := pa.transfer.isSome
  let target :=
    match pa.transfer with
    | none => voice_agent_number env
    | some payload => resolve_transfer_target env payload
  let cs9 :=
    if should_transfer then { p.cs with transfer_requested := some true } else p.cs
  let store9 :=
    if should_transfer then set_call_state p.store uuid { p.cs with transfer_requested := some true }
    else p.store
  let talk := NccoAction.talk pa.cleaned (!should_transfer)
  let ncco :=
    if should_transfer then
      [talk, .connect (cs9.bot_number.getD (voice_agent_number env)) (fmt_plus target)]
    else if pa.should_hangup then [talk, .hangup]
    else
      let thr := if pa.should_wait then 50
        else if cs9.history.length ≤ 1 then 15 else 12
      [talk, .input thr]
  let cs10 := { cs9 with processing := false }
  let store10 := set_call_state store9 uuid cs10
  ⟨store10, .actions ncco, p.trace⟩

/-- The body of `handle_voice_asr` once the turn has been admitted (the
session fetched and `processing` set): transcription, sentinel
classification, noise filtering, user-turn append, and the branch between
the short circuit and the normal turn. -/
def asr_turn_body (env : Env) (o : AsrOracle) (uuid : String) (store2 : Store)
    (cs2 : CallState) : AsrRunResult :=
  let traceT : List (Effect × Bool) :=
    if o.audio_present || o.recording_url_present then
      [(Effect.transcribeAudio, cs2.processing)]
    else []
  let speech0 := determine_speech_text o
  let speech := if is_sentinel speech0 then speech0 else noise_filter speech0
  let cs3 := { cs2 with history := append_history_entry cs2.history ⟨"user", speech⟩ }
  let store3 := set_call_state store2 uuid cs3
  if is_sentinel speech then asr_sentinel_reply uuid store3 cs3 traceT
  else asr_normal_turn env o uuid store3 cs3 traceT speech

/-- `handle_voice_asr` (voice.py lines 416-709): one batch turn as a pure
function of the store, the webhook call id and the collaborator oracle.
`append_history` is inlined at the known key because the handler's local
`call_state` dict aliases the stored one. -/
def handle_voice_asr (env : Env) (store0 : Store) (uuid : String) (o : AsrOracle) :
    AsrRunResult :=
  let (store1, cs0) := get_call_state store0 uuid
  if call_state_falsy cs0 then ⟨store1, .notFound, []⟩
  else
    let cs1 := wait_lookup_loop 25 store1 uuid cs0
    if cs1.processing then ⟨store1, .actions [], []⟩
    else
      let cs2 := { cs1 with processing := true }
      let store2 := set_call_state store1 uuid cs2
      asr_turn_body env o uuid store2 cs2

/-! ## Background action executor (`main.execute_ai_actions`)

The streaming agent parses `[(ACTION|SENTIMENT): payload]` pairs out of
the reply and hands the whole list to `execute_ai_actions`, which runs in
a fire-and-forget task.  A single `try/except` wraps the whole loop:
when one tag raises (`int(t_id)` on a non-numeric id is the one raising
statement), the remaining tags are abandoned. -/

structure ExecOracle where
  create_ticket_result : Option String
  /-- `create_contact` returns a dict: `none` models the empty dict of a
  failed creation, `some idOpt` a non-empty dict whose `"id"` is `idOpt`. -/
  create_contact : Option (Option Nat)
deriving DecidableEq

/-- Python `s.split(':')`: split on every colon. -/
def split_colon_aux : List Char → List Char → List (List Char)
  | acc, [] => [acc.reverse]
  | acc, ':' :: t => acc.reverse :: split_colon_aux [] t
  | acc, c :: t => split_colon_aux (c :: acc) t

/-- `[p.strip() for p in tag_content.split(':')]`. -/
def tag_parts (content : String) : List String :=
  (split_colon_aux [] content.data).map (fun l => py_strip (String.mk l))

def tag_cmd (content : String) : String := ascii_upper ((tag_parts content).headD "")

def tag_arg1 (content : String) : Option String := ((tag_parts content).drop 1).head?

/-- One iteration of the dispatch loop.  `none` models an uncaught
exception escaping the iteration (only `int(t_id)` can raise, before any
side effect of its branch). -/
def exec_one_tag (env : Env) (o : ExecOracle) (text_len : Nat) (uuid : String)
    (cs : CallState) (store : Store) (tag : String × String) :
    Option (CallState × Store × List Effect) :=
  if tag.1 = "SENTIMENT" then
    let s := py_capitalize (py_strip tag.2)
    let c := { cs with sentiment := some s }
    some (c, set_call_state store uuid c, [])
  else
    let cmd := tag_cmd tag.2
    if cmd = "TRANSFER" then
      let dest := main_agent_number env
      let bot := cs.bot_number.getD "18335645478"
      some (cs, store, [Effect.transferCall dest bot])
    else if cmd = "CREATE_TICKET" then
      let desc := (tag_arg1 tag.2).getD "No description provided"
      match o.create_ticket_result with
      | some t =>
          if t = "" then some (cs, store, [Effect.createTicket desc])
          else
            let c := { cs with ticket_id := some t }
            some (c, set_call_state store uuid c, [Effect.createTicket desc])
      | none => some (cs, store, [Effect.createTicket desc])
    else if cmd = "RESOLVE_TICKET" then
      let t_id := match tag_arg1 tag.2 with
        | some p => some p
        | none => cs.ticket_id
      match t_id with
      | some t =>
          if t = "" then some (cs, store, [])
          else
            match parse_int_py t with
            | some n => some (cs, store, [Effect.resolveTicket n])
            | none => none
      | none => some (cs, store, [])
    else if cmd = "UPDATE_NAME" then
      let new_name := (tag_arg1 tag.2).getD "Unknown"
      match cs.contact_id with
      | some cid =>
          let c := { cs with contact_name := some new_name }
          some (c, set_call_state store uuid c, [Effect.renameContact cid new_name])
      | none =>
          match cs.from_number with
          | some p =>
              if p = "" then
                let c := { cs with contact_name := some new_name }
                some (c, set_call_state store uuid c, [])
              else
                let cs1 := match o.create_contact with
                  | some idOpt => { cs with contact_id := idOpt }
                  | none => cs
                let c := { cs1 with contact_name := some new_name }
                some (c, set_call_state store uuid c, [Effect.createContact new_name p])
          | none =>
              let c := { cs with contact_name := some new_name }
              some (c, set_call_state store uuid c, [])
    else if cmd = "USE_TICKET" then
      match tag_arg1 tag.2 with
      | some t =>
          if t = "" then some (cs, store, [])
          else
            let c := { cs with ticket_id := some t }
            some (c, set_call_state store uuid c, [])
      | none => some (cs, store, [])
    else if cmd = "HANGUP" then
      some (cs, store, [Effect.hangupCall text_len])
    else some (cs, store, [])

/-- `execute_ai_actions`: the dispatch loop under its single outer
`try/except` — a raising iteration stops the loop, keeping the state and
effects accumulated so far. -/
def execute_ai_actions (env : Env) (o : ExecOracle) (text_len : Nat) (uuid : String) :
    CallState → Store → List (String × String) → CallState × Store × List Effect
  | cs, store, [] => (cs, store, [])
  | cs, store, tag :: rest =>
      match exec_one_tag env o text_len uuid cs store tag with
      | some (cs1, store1, effs) =>
          let r := execute_ai_actions env o text_len uuid cs1 store1 rest
          (r.1, r.2.1, effs ++ r.2.2)
      | none => (cs, store, [])

/-- Whether every iteration of the loop succeeds (no exception). -/
def tags_succeed (env : Env) (o : ExecOracle) (text_len : Nat) (uuid : String) :
    CallState → Store → List (String × String) → Bool
  | _, _, [] => true
  | cs, store, tag :: rest =>
      match exec_one_tag env o text_len uuid cs store tag with
      | some (cs1, store1, _) => tags_succeed env o text_len uuid cs1 store1 rest
      | none => false

/-! ## Streaming-mode callbacks (`main.on_speech_ended`,
`main.process_and_respond`) -/

/-- The module-level flags of the websocket path. -/
structure StreamSys where
  processing_ai : Bool
  loop_running : Bool
deriving DecidableEq

/-- `on_speech_ended`: a finalized utterance arriving while a turn is in
flight returns immediately without scheduling anything; otherwise the
flag is set and the pipeline is scheduled on the main loop (with the flag
rolled back when no loop is available).  The second component tells
whether `process_and_respond` was scheduled. -/
def on_speech_ended (sys : StreamSys) : StreamSys × Bool :=
  if sys.processing_ai then (sys, false)
  else
    let sys1 := { sys with processing_ai := true }
    if sys1.loop_running then (sys1, true)
    else ({ sys1 with processing_ai := false }, false)

/-- The reply parser of the streaming path:
`re.findall(r'\[(ACTION|SENTIMENT):\s*([^\]]+)\]', ai_reply)`. -/
def m_tag_pair (l : List Char) : Option ((String × String) × List Char) :=
  match l with
  | '[' :: r =>
      let kr : Option (String × List Char) :=
        if list_starts_with "ACTION".data r then some ("ACTION", r.drop 6)
        else if list_starts_with "SENTIMENT".data r then some ("SENTIMENT", r.drop 9)
        else none
      match kr with
      | some (k, r2) =>
          match r2 with
          | ':' :: r3 =>
              (try_cap_ws_group r3).map (fun g => ((k, String.mk g.1), g.2))
          | _ => none
      | none => none
  | _ => none

def findall_action_tags (s : String) : List (String × String) :=
  findall_pat m_tag_pair s

/-- The cleanup sub of the streaming path:
`re.sub(r'\[(ACTION|SENTIMENT):[^\]]+\]', '', ai_reply).strip()`. -/
def m_tag_clean (l : List Char) : Option (Unit × List Char) :=
  match l with
  | '[' :: r =>
      let kr : Option (List Char) :=
        if list_starts_with "ACTION".data r then some (r.drop 6)
        else if list_starts_with "SENTIMENT".data r then some (r.drop 9)
        else none
      match kr with
      | some r2 =>
          match r2 with
          | ':' :: r3 => (try_cap_nonbracket r3).map (fun g => ((), g.2))
          | _ => none
      | none => none
  | _ => none

def clean_action_tags (s : String) : String := py_strip (sub_pat m_tag_clean s)

structure StreamOracle where
  llm_reply : String
deriving DecidableEq

structure StreamRunResult where
  sys : StreamSys
  store : Store
  trace : List (Effect × Bool)
deriving DecidableEq

/-- `process_and_respond`: the streaming turn pipeline.  Trace entries
record the `processing_ai` flag at the moment of each collaborator call;
the `finally` block clears the flag on every path. -/
def process_and_respond (o : StreamOracle) (sys : StreamSys) (store : Store)
    (call_uuid : Option String) (transcript : String) : StreamRunResult :=
  match call_uuid with
  | none => ⟨{ sys with processing_ai := false }, store, []⟩
  | some u =>
      let store1 := append_history store u "user" transcript
      let (store2, cs) := get_call_state store1 u
      let reply := o.llm_reply
      let tr1 := [(Effect.llmCall transcript cs.ticket_id cs.contact_name, sys.processing_ai)]
      let store3 := append_history store2 u "assistant" reply
      let tags := findall_action_tags reply
      let clean := clean_action_tags reply
      let tr2 := tr1 ++ [(Effect.ttsInject clean, sys.processing_ai)]
      let tr3 := if tags ≠ [] then tr2 ++ [(Effect.spawnActions tags, sys.processing_ai)] else tr2
      ⟨{ sys with processing_ai := false }, store3, tr3⟩

/-! ## Contact-name handling fragments -/

/-- The greeting choice of `handle_voice_answer` (voice.py lines
753-765): personalized only when the looked-up name contains a letter and
is not "unknown" (case-insensitive). -/
def answer_greeting (raw_name : Option String) : String :=
  let r := raw_name.getD ""
  if r ≠ "" && has_letter r && ascii_lower r ≠ "unknown" then
    "Hello " ++ r ++ ". Welcome back to Sandeza support. How can I help you today?"
  else
    "Hello. Welcome to Sandeza support. How can I help you today?"

def generic_greeting : String :=
  "Hello. Welcome to Sandeza support. How can I help you today?"

/-- The sanitization in `agent_response` (groq.py lines 517-519): only a
non-empty name with no letter is replaced by "Unknown". -/
def sanitize_display_name (contact_name : Option String) : Option String :=
  match contact_name with
  | none => none
  | some n => if n ≠ "" && !has_letter n then some "Unknown" else some n

/-- What `agent_response` injects into the system prompt (groq.py lines
521-522): the sanitized display name when truthy, else nothing. -/
def customer_info_name (contact_name : Option String) : Option String :=
  match sanitize_display_name contact_name with
  | none => none
  | some n => if n = "" then none else some n

/-- The name filter of `background_freshdesk_lookup` (voice.py lines
333-341): a name without a letter or equal to "unknown"
(case-insensitive) is stored as `None` (anonymous). -/
def background_lookup_contact_name (name : Option String) : Option String :=
  match name with
  | none => none
  | some n =>
      if n ≠ "" && has_letter n && ascii_lower n ≠ "unknown" then some n else none

/-! # Theorems -/

/-! ## Trailing-window truncation (claim C5) -/

theorem takeLast_append_single {α : Type} (n : Nat) (l : List α) (m : α) :
    takeLast n (takeLast n l ++ [m]) = takeLast n (l ++ [m]) := by
  unfold takeLast
  rcases le_or_lt l.length n with h | h
  · have h0 : l.length - n = 0 := Nat.sub_eq_zero_of_le h
    rw [h0]
    simp
  · have hlen : (l.drop (l.length - n)).length = n := by
      rw [List.length_drop]
      omega
    cases n with
    | zero =>
        have h1 : l.drop (l.length - 0) = [] := List.drop_eq_nil_of_le (by omega)
        rw [h1]
        simp
    | succ k =>
        rw [List.length_append, List.length_append, hlen]
        have e1 : k + 1 + [m].length - (k + 1) = 1 := by simp
        have e2 : l.length + [m].length - (k + 1) = (l.length - (k + 1)) + 1 := by
          simp
          omega
        rw [e1, e2, List.drop_append_eq_append_drop, List.drop_append_eq_append_drop,
          List.drop_drop, hlen]
        have e3 : 1 - (k + 1) = 0 := by omega
        have e4 : l.length - (k + 1) + 1 - l.length = 0 := by omega
        rw [e3, e4]

/-- Folding appends over a trailing-window accumulator tracks the
trailing window of the whole sequence. -/
theorem foldl_takeLast_window {α : Type} (n : Nat)
    (app : List α → α → List α) (happ : ∀ h m, app h m = takeLast n (h ++ [m])) :
    ∀ (ms : List α) (l : List α),
      List.foldl app (takeLast n l) ms = takeLast n (l ++ ms) := by
  intro ms
  induction ms with
  | nil => intro l; simp
  | cons m ms ih =>
      intro l
      have step : app (takeLast n l) m = takeLast n (l ++ [m]) := by
        rw [happ, takeLast_append_single]
      calc List.foldl app (takeLast n l) (m :: ms)
          = List.foldl app (app (takeLast n l) m) ms := by rfl
        _ = List.foldl app (takeLast n (l ++ [m])) ms := by rw [step]
        _ = takeLast n ((l ++ [m]) ++ ms) := ih (l ++ [m])
        _ = takeLast n (l ++ m :: ms) := by rw [List.append_assoc]; rfl

/-- Claim C5 as stated is false of the older variant: appending 13
messages through `voice-agent/app/state.py` keeps only 12, not the
claimed 50-entry window. -/
theorem append_history_claimed_window_cx :
    ¬ (List.foldl append_history_entry_va []
        (((List.range 13).map (fun i => (⟨"user", toString i⟩ : Msg)))) =
       takeLast 50 (((List.range 13).map (fun i => (⟨"user", toString i⟩ : Msg))))) := by
  decide

/-- Claim C5 (amended): `append_history` keeps exactly the trailing
window of the appended sequence, earliest entries evicted first and order
preserved — a 50-entry window in `app/state.py` and a 12-entry window in
`voice-agent/app/state.py`. -/
theorem append_history_trailing_window (ms : List Msg) :
    List.foldl append_history_entry [] ms = takeLast 50 ms ∧
    List.foldl append_history_entry_va [] ms = takeLast 12 ms := by
  constructor
  · have h := foldl_takeLast_window 50 append_history_entry
      (fun h m => rfl) ms []
    simpa [takeLast] using h
  · have h := foldl_takeLast_window 12 append_history_entry_va
      (fun h m => rfl) ms []
    simpa [takeLast] using h

/-! ## Store lemmas -/

theorem lookup_insert_self (s : Store) (u : String) (cs : CallState) :
    (Store.insert s u cs).lookup u = some cs := by
  induction s with
  | nil => simp [Store.insert, Store.lookup]
  | cons kv t ih =>
      by_cases h : kv.1 = u
      · cases kv
        simp_all [Store.insert, Store.lookup]
      · cases kv
        simp_all [Store.insert, Store.lookup]

theorem get_call_state_found {s : Store} {u : String} {cs : CallState}
    (h : s.lookup u = some cs) : get_call_state s u = (s, cs) := by
  simp [get_call_state, h]

theorem wait_lookup_loop_fixed (n : Nat) {s : Store} {u : String} {cs : CallState}
    (h : s.lookup u = some cs) : wait_lookup_loop n s u cs = cs := by
  induction n with
  | zero => rfl
  | succ k ih =>
      unfold wait_lookup_loop
      by_cases hl : cs.lookup_done.getD false <;> simp [hl, get_call_state, h, ih]

/-! ## Per-step lemmas about the action-application pipeline -/

theorem step_sentiment_cs (u : String) (pa : ParsedActions) (p : Pipe) :
    (step_sentiment u pa p).cs.processing = p.cs.processing ∧
    (step_sentiment u pa p).cs.bot_number = p.cs.bot_number ∧
    (step_sentiment u pa p).cs.ticket_id = p.cs.ticket_id ∧
    (step_sentiment u pa p).cs.transfer_requested = p.cs.transfer_requested ∧
    (step_sentiment u pa p).trace = p.trace := by
  unfold step_sentiment
  cases pa.sentiment <;> simp

theorem step_create_cs (u : String) (o : AsrOracle) (pa : ParsedActions) (p : Pipe) :
    (step_create u o pa p).cs.processing = p.cs.processing ∧
    (step_create u o pa p).cs.bot_number = p.cs.bot_number ∧
    (step_create u o pa p).cs.transfer_requested = p.cs.transfer_requested := by
  unfold step_create
  cases pa.create_desc <;> simp

theorem step_create_ticket_some (u : String) (o : AsrOracle) (pa : ParsedActions)
    (p : Pipe) (d : String) (hd : pa.create_desc = some d) :
    (step_create u o pa p).cs.ticket_id = o.create_ticket_result ∧
    (Effect.createTicket d, p.cs.processing) ∈ (step_create u o pa p).trace := by
  unfold step_create
  rw [hd]
  simp

theorem step_create_trace (u : String) (o : AsrOracle) (pa : ParsedActions) (p : Pipe) :
    ∀ q ∈ (step_create u o pa p).trace,
      q ∈ p.trace ∨ (q.1.isLlmCall = false ∧ q.2 = p.cs.processing) := by
  unfold step_create
  cases pa.create_desc with
  | none => exact fun q hq => Or.inl hq
  | some d =>
      intro q hq
      simp at hq
      rcases hq with h1 | h1
      · exact Or.inl h1
      · subst h1
        exact Or.inr ⟨rfl, rfl⟩

theorem step_create_trace_sub (u : String) (o : AsrOracle) (pa : ParsedActions) (p : Pipe) :
    ∀ q ∈ p.trace, q ∈ (step_create u o pa p).trace := by
  unfold step_create
  cases pa.create_desc <;> simp_all

theorem step_use_cs (u : String) (pa : ParsedActions) (p : Pipe) :
    (step_use u pa p).cs.processing = p.cs.processing ∧
    (step_use u pa p).cs.bot_number = p.cs.bot_number ∧
    (step_use u pa p).cs.transfer_requested = p.cs.transfer_requested ∧
    (step_use u pa p).trace = p.trace := by
  unfold step_use
  cases pa.use_id <;> simp

theorem step_use_ticket_none (u : String) (pa : ParsedActions) (p : Pipe)
    (hu : pa.use_id = none) : (step_use u pa p).cs.ticket_id = p.cs.ticket_id := by
  unfold step_use
  rw [hu]

theorem step_resolve_cs (pa : ParsedActions) (p : Pipe) :
    (step_resolve pa p).cs = p.cs := by
  unfold step_resolve
  cases pa.resolve_id <;> simp

theorem step_resolve_trace (pa : ParsedActions) (p : Pipe) :
    ∀ q ∈ (step_resolve pa p).trace,
      q ∈ p.trace ∨ (q.1.isLlmCall = false ∧ q.2 = p.cs.processing) := by
  unfold step_resolve
  cases pa.resolve_id with
  | none => exact fun q hq => Or.inl hq
  | some n =>
      intro q hq
      simp at hq
      rcases hq with h1 | h1
      · exact Or.inl h1
      · subst h1
        exact Or.inr ⟨rfl, rfl⟩

theorem step_resolve_trace_sub (pa : ParsedActions) (p : Pipe) :
    ∀ q ∈ p.trace, q ∈ (step_resolve pa p).trace := by
  unfold step_resolve
  cases pa.resolve_id <;> simp_all

theorem step_update_name_cs (u : String) (pa : ParsedActions) (p : Pipe) :
    (step_update_name u pa p).cs.processing = p.cs.processing ∧
    (step_update_name u pa p).cs.bot_number = p.cs.bot_number ∧
    (step_update_name u pa p).cs.ticket_id = p.cs.ticket_id ∧
    (step_update_name u pa p).cs.transfer_requested = p.cs.transfer_requested := by
  unfold step_update_name
  cases pa.new_name with
  | none => simp
  | some nm =>
      by_cases hg : is_placeholder_name p.cs.contact_name && accepts_new_name nm <;> simp [hg]

theorem step_update_name_trace (u : String) (pa : ParsedActions) (p : Pipe) :
    ∀ q ∈ (step_update_name u pa p).trace,
      q ∈ p.trace ∨ (q.1.isLlmCall = false ∧ q.2 = p.cs.processing) := by
  unfold step_update_name
  cases pa.new_name with
  | none => exact fun q hq => Or.inl hq
  | some nm =>
      by_cases hg : is_placeholder_name p.cs.contact_name && accepts_new_name nm
      · intro q hq
        simp [hg] at hq
        rcases hq with h1 | h1
        · exact Or.inl h1
        · subst h1
          exact Or.inr ⟨rfl, rfl⟩
      · intro q hq
        dsimp only at hq
        rw [if_neg hg] at hq
        exact Or.inl hq

theorem step_update_name_trace_sub (u : String) (pa : ParsedActions) (p : Pipe) :
    ∀ q ∈ p.trace, q ∈ (step_update_name u pa p).trace := by
  unfold step_update_name
  cases pa.new_name with
  | none => exact fun q hq => hq
  | some nm =>
      intro q hq
      dsimp only
      by_cases hg : (is_placeholder_name p.cs.contact_name && accepts_new_name nm) = true
      · rw [if_pos hg]
        exact List.mem_append_left _ hq
      · rw [if_neg hg]
        exact hq

/-- Combined facts about `apply_reply_actions` needed by the claims:
the `processing`, `bot_number` and `transfer_requested` fields survive
untouched, and every trace entry is either inherited or a non-LLM
collaborator call made with the incoming `processing` flag. -/
theorem apply_reply_actions_spec (u : String) (o : AsrOracle) (pa : ParsedActions) (p : Pipe) :
    (apply_reply_actions u o pa p).cs.processing = p.cs.processing ∧
    (apply_reply_actions u o pa p).cs.bot_number = p.cs.bot_number ∧
    (apply_reply_actions u o pa p).cs.transfer_requested = p.cs.transfer_requested ∧
    (∀ q ∈ (apply_reply_actions u o pa p).trace,
      q ∈ p.trace ∨ (q.1.isLlmCall = false ∧ q.2 = p.cs.processing)) := by
  unfold apply_reply_actions
  have h1 := step_sentiment_cs u pa p
  have h2 := step_create_cs u o pa (step_sentiment u pa p)
  have h2t := step_create_trace u o pa (step_sentiment u pa p)
  have h3 := step_use_cs u pa (step_create u o pa (step_sentiment u pa p))
  have h4 := step_resolve_cs pa (step_use u pa (step_create u o pa (step_sentiment u pa p)))
  have h4t := step_resolve_trace pa (step_use u pa (step_create u o pa (step_sentiment u pa p)))
  have h5 := step_update_name_cs u pa
    (step_resolve pa (step_use u pa (step_create u o pa (step_sentiment u pa p))))
  have h5t := step_update_name_trace u pa
    (step_resolve pa (step_use u pa (step_create u o pa (step_sentiment u pa p))))
  refine ⟨?_, ?_, ?_, ?_⟩
  · rw [h5.1, h4, h3.1, h2.1, h1.1]
  · rw [h5.2.1, h4, h3.2.1, h2.2.1, h1.2.1]
  · rw [h5.2.2.2, h4, h3.2.2.1, h2.2.2, h1.2.2.2.1]
  · intro q hq
    rcases h5t q hq with hq4 | hnew
    · rcases h4t q hq4 with hq3 | hnew
      · rw [h3.2.2.2] at hq3
        rcases h2t q hq3 with hq1 | hnew
        · rw [h1.2.2.2.2] at hq1
          exact Or.inl hq1
        · right
          rw [h1.1] at hnew
          exact hnew
      · right
        rw [h3.1, h2.1, h1.1] at hnew
        exact hnew
    · right
      rw [h4, h3.1, h2.1, h1.1] at hnew
      exact hnew

theorem mem_ite_list {α : Type} {c : Prop} [Decidable c] {l1 l2 : List α} {q : α}
    (h : q ∈ (if c then l1 else l2)) : q ∈ l1 ∨ q ∈ l2 := by
  split at h
  · exact Or.inl h
  · exact Or.inr h

/-! ## Reduction lemmas for the batch handler -/

theorem noise_filter_cases (s : String) :
    noise_filter s = s ∨ noise_filter s = "[SILENCE]" := by
  unfold noise_filter
  dsimp only
  split
  · split
    · exact Or.inr rfl
    · exact Or.inl rfl
  · split
    · exact Or.inr rfl
    · exact Or.inl rfl

theorem is_sentinel_noise_filter {s : String} (h : is_sentinel s = false) :
    is_sentinel (noise_filter s) = false := by
  rcases noise_filter_cases s with h1 | h1
  · rw [h1]
    exact h
  · rw [h1]
    decide

/-- Once the session is found and not `processing`, the handler runs the
turn body on the session with `processing` set. -/
theorem handle_voice_asr_admitted {env : Env} {store0 : Store} {uuid : String}
    {o : AsrOracle} {cs0 : CallState}
    (h : store0.lookup uuid = some cs0) (hp : cs0.processing = false) :
    handle_voice_asr env store0 uuid o =
      asr_turn_body env o uuid (set_call_state store0 uuid { cs0 with processing := true })
        { cs0 with processing := true } := by
  unfold handle_voice_asr
  rw [get_call_state_found h]
  dsimp only
  rw [wait_lookup_loop_fixed 25 h]
  simp [call_state_falsy, hp]

theorem asr_turn_body_sentinel {o : AsrOracle} (env : Env) (uuid : String)
    (store2 : Store) (cs2 : CallState)
    (hs : is_sentinel (determine_speech_text o) = true) :
    asr_turn_body env o uuid store2 cs2 =
      asr_sentinel_reply uuid
        (set_call_state store2 uuid
          { cs2 with history := append_history_entry cs2.history ⟨"user", determine_speech_text o⟩ })
        { cs2 with history := append_history_entry cs2.history ⟨"user", determine_speech_text o⟩ }
        (if o.audio_present || o.recording_url_present then
          [(Effect.transcribeAudio, cs2.processing)] else []) := by
  unfold asr_turn_body
  simp [hs]

theorem asr_turn_body_normal {o : AsrOracle} (env : Env) (uuid : String)
    (store2 : Store) (cs2 : CallState)
    (hs : is_sentinel (determine_speech_text o) = false) :
    asr_turn_body env o uuid store2 cs2 =
      asr_normal_turn env o uuid
        (set_call_state store2 uuid
          { cs2 with history := (append_history_entry cs2.history ⟨"user", noise_filter (determine_speech_text o)⟩) })
        { cs2 with history := (append_history_entry cs2.history ⟨"user", noise_filter (determine_speech_text o)⟩) }
        (if o.audio_present || o.recording_url_present then
          [(Effect.transcribeAudio, cs2.processing)] else [])
        (noise_filter (determine_speech_text o)) := by
  unfold asr_turn_body
  simp [hs, is_sentinel_noise_filter hs]

theorem lookup_set_call_state (s : Store) (u : String) (cs : CallState) :
    (set_call_state s u cs).lookup u = some cs := lookup_insert_self s u cs

theorem apply_reply_actions_trace_sub (u : String) (o : AsrOracle) (pa : ParsedActions)
    (p : Pipe) : ∀ q ∈ p.trace, q ∈ (apply_reply_actions u o pa p).trace := by
  intro q hq
  unfold apply_reply_actions
  apply step_update_name_trace_sub
  apply step_resolve_trace_sub
  rw [(step_use_cs u pa _).2.2.2]
  apply step_create_trace_sub
  rw [(step_sentiment_cs u pa p).2.2.2.2]
  exact hq

theorem apply_reply_actions_create (u : String) (o : AsrOracle) (pa : ParsedActions)
    (p : Pipe) (d : String) (hd : pa.create_desc = some d) (hu : pa.use_id = none) :
    (apply_reply_actions u o pa p).cs.ticket_id = o.create_ticket_result ∧
    (Effect.createTicket d, p.cs.processing) ∈ (apply_reply_actions u o pa p).trace := by
  unfold apply_reply_actions
  constructor
  · rw [(step_update_name_cs u pa _).2.2.1, step_resolve_cs, step_use_ticket_none u pa _ hu,
      (step_create_ticket_some u o pa _ d hd).1]
  · apply step_update_name_trace_sub
    apply step_resolve_trace_sub
    rw [(step_use_cs u pa _).2.2.2]
    have h2 := (step_create_ticket_some u o pa (step_sentiment u pa p) d hd).2
    rw [(step_sentiment_cs u pa p).1] at h2
    exact h2

/-- Field preservation and trace discipline of the full pipe. -/
theorem asr_turn_pipe_spec (env : Env) (o : AsrOracle) (uuid : String)
    (store3 : Store) (cs3 : CallState) (traceT : List (Effect × Bool)) (speech : String) :
    (asr_turn_pipe env o uuid store3 cs3 traceT speech).cs.processing = cs3.processing ∧
    (asr_turn_pipe env o uuid store3 cs3 traceT speech).cs.bot_number = cs3.bot_number ∧
    (asr_turn_pipe env o uuid store3 cs3 traceT speech).cs.transfer_requested
      = cs3.transfer_requested ∧
    (∀ q ∈ (asr_turn_pipe env o uuid store3 cs3 traceT speech).trace,
      q ∈ traceT ∨ q.2 = cs3.processing) := by
  unfold asr_turn_pipe
  refine ⟨?_, ?_, ?_, ?_⟩
  · rw [(apply_reply_actions_spec uuid o _ _).1]
  · rw [(apply_reply_actions_spec uuid o _ _).2.1]
  · rw [(apply_reply_actions_spec uuid o _ _).2.2.1]
  · intro q hq
    rcases (apply_reply_actions_spec uuid o _ _).2.2.2 q hq with hin | hnew
    · rcases List.mem_append.mp hin with hk | hl
      · by_cases hkb : (speech.length < 10 ||
          confirmations.contains (strip_non_word (ascii_lower (py_strip speech)))) = true
        · rw [if_pos hkb] at hk
          exact Or.inl hk
        · rw [if_neg hkb] at hk
          rcases List.mem_append.mp hk with h1 | h1
          · exact Or.inl h1
          · simp at h1
            rw [h1]
            exact Or.inr rfl
      · simp at hl
        rw [hl]
        exact Or.inr rfl
    · exact Or.inr hnew.2

/-- The generation call is always in the pipe trace, with the active
ticket id and contact name of the session surfaced to it. -/
theorem asr_turn_pipe_llm (env : Env) (o : AsrOracle) (uuid : String)
    (store3 : Store) (cs3 : CallState) (traceT : List (Effect × Bool)) (speech : String) :
    (Effect.llmCall speech cs3.ticket_id cs3.contact_name, cs3.processing) ∈
      (asr_turn_pipe env o uuid store3 cs3 traceT speech).trace := by
  unfold asr_turn_pipe
  apply apply_reply_actions_trace_sub
  exact List.mem_append_right _ (List.mem_singleton.mpr rfl)

/-- A CREATE_TICKET tag always invokes the ticketing collaborator and
overwrites the session ticket id with its result (when no USE_TICKET tag
also fires in the same reply). -/
theorem asr_turn_pipe_create (env : Env) (o : AsrOracle) (uuid : String)
    (store3 : Store) (cs3 : CallState) (traceT : List (Effect × Bool)) (speech : String)
    (d : String)
    (hd : (parse_reply_actions cs3.contact_id.isSome o.llm_reply).create_desc = some d)
    (hu : (parse_reply_actions cs3.contact_id.isSome o.llm_reply).use_id = none) :
    (asr_turn_pipe env o uuid store3 cs3 traceT speech).cs.ticket_id
      = o.create_ticket_result ∧
    (Effect.createTicket d, cs3.processing) ∈
      (asr_turn_pipe env o uuid store3 cs3 traceT speech).trace := by
  unfold asr_turn_pipe
  exact apply_reply_actions_create uuid o _ _ d hd hu

theorem asr_normal_turn_trace_eq (env : Env) (o : AsrOracle) (uuid : String)
    (store3 : Store) (cs3 : CallState) (traceT : List (Effect × Bool)) (speech : String) :
    (asr_normal_turn env o uuid store3 cs3 traceT speech).trace =
      (asr_turn_pipe env o uuid store3 cs3 traceT speech).trace := rfl

/-- The session the normal turn finally stores: the pipe session, with
`transfer_requested` set when a transfer fired, and `processing`
cleared. -/
theorem asr_normal_turn_final_state (env : Env) (o : AsrOracle) (uuid : String)
    (store3 : Store) (cs3 : CallState) (traceT : List (Effect × Bool)) (speech : String) :
    (asr_normal_turn env o uuid store3 cs3 traceT speech).store.lookup uuid =
      some { (if (parse_reply_actions cs3.contact_id.isSome o.llm_reply).transfer.isSome then
                { (asr_turn_pipe env o uuid store3 cs3 traceT speech).cs with
                    transfer_requested := some true }
              else (asr_turn_pipe env o uuid store3 cs3 traceT speech).cs) with
          processing := false } := by
  unfold asr_normal_turn
  dsimp only
  split
  · exact lookup_set_call_state _ _ _
  · exact lookup_set_call_state _ _ _

theorem asr_normal_turn_trace (env : Env) (o : AsrOracle) (uuid : String)
    (store3 : Store) (cs3 : CallState) (traceT : List (Effect × Bool)) (speech : String) :
    ∀ q ∈ (asr_normal_turn env o uuid store3 cs3 traceT speech).trace,
      q ∈ traceT ∨ q.2 = cs3.processing := by
  rw [asr_normal_turn_trace_eq]
  exact (asr_turn_pipe_spec env o uuid store3 cs3 traceT speech).2.2.2

theorem asr_normal_turn_store (env : Env) (o : AsrOracle) (uuid : String)
    (store3 : Store) (cs3 : CallState) (traceT : List (Effect × Bool)) (speech : String) :
    (((asr_normal_turn env o uuid store3 cs3 traceT speech).store.lookup uuid)).map
      CallState.processing = some false := by
  rw [asr_normal_turn_final_state]
  rfl

/-- A detected transfer produces a talk action with barge-in disabled
followed by a connect action to the resolved target — no hangup action
and no input action — and marks the session `transfer_requested`. -/
theorem asr_normal_turn_transfer (env : Env) (o : AsrOracle) (uuid : String)
    (store3 : Store) (cs3 : CallState) (traceT : List (Effect × Bool)) (speech : String)
    (payload : Option String)
    (htr : (parse_reply_actions cs3.contact_id.isSome o.llm_reply).transfer = some payload) :
    (asr_normal_turn env o uuid store3 cs3 traceT speech).response =
      AsrResponse.actions
        [NccoAction.talk (parse_reply_actions cs3.contact_id.isSome o.llm_reply).cleaned false,
          NccoAction.connect (cs3.bot_number.getD (voice_agent_number env))
            (fmt_plus (resolve_transfer_target env payload))] ∧
    ((asr_normal_turn env o uuid store3 cs3 traceT speech).store.lookup uuid).map
      CallState.transfer_requested = some (some true) := by
  constructor
  · have hbot := (asr_turn_pipe_spec env o uuid store3 cs3 traceT speech).2.1
    unfold asr_normal_turn
    dsimp only
    rw [htr, ← hbot]
    simp
  · rw [asr_normal_turn_final_state, htr]
    rfl

/-- A CREATE_TICKET tag with no USE_TICKET tag: the collaborator runs and
the stored session ends with the collaborator result as its ticket id. -/
theorem asr_normal_turn_create (env : Env) (o : AsrOracle) (uuid : String)
    (store3 : Store) (cs3 : CallState) (traceT : List (Effect × Bool)) (speech : String)
    (d : String)
    (hd : (parse_reply_actions cs3.contact_id.isSome o.llm_reply).create_desc = some d)
    (hu : (parse_reply_actions cs3.contact_id.isSome o.llm_reply).use_id = none) :
    (Effect.createTicket d, cs3.processing) ∈
      (asr_normal_turn env o uuid store3 cs3 traceT speech).trace ∧
    ((asr_normal_turn env o uuid store3 cs3 traceT speech).store.lookup uuid).map
      CallState.ticket_id = some o.create_ticket_result := by
  constructor
  · rw [asr_normal_turn_trace_eq]
    exact (asr_turn_pipe_create env o uuid store3 cs3 traceT speech d hd hu).2
  · rw [asr_normal_turn_final_state]
    have ht := (asr_turn_pipe_create env o uuid store3 cs3 traceT speech d hd hu).1
    split <;> simp [ht]

theorem asr_sentinel_reply_store (uuid : String) (store3 : Store) (cs3 : CallState)
    (traceT : List (Effect × Bool)) :
    (((asr_sentinel_reply uuid store3 cs3 traceT).store.lookup uuid)).map
      CallState.processing = some false := by
  unfold asr_sentinel_reply
  simp [set_call_state, lookup_insert_self]

theorem asr_turn_body_trace (env : Env) (o : AsrOracle) (uuid : String)
    (store2 : Store) (cs2 : CallState) :
    ∀ q ∈ (asr_turn_body env o uuid store2 cs2).trace, q.2 = cs2.processing := by
  by_cases hs : is_sentinel (determine_speech_text o) = true
  · rw [asr_turn_body_sentinel env uuid store2 cs2 hs]
    unfold asr_sentinel_reply
    intro q hq
    dsimp only at hq
    split at hq
    · simp at hq
      rw [hq]
    · simp at hq
  · rw [asr_turn_body_normal env uuid store2 cs2 (by simpa using hs)]
    intro q hq
    rcases asr_normal_turn_trace env o uuid _ _ _ _ q hq with ht | hp
    · split at ht
      · simp at ht
        rw [ht]
      · simp at ht
    · exact hp

theorem asr_turn_body_store (env : Env) (o : AsrOracle) (uuid : String)
    (store2 : Store) (cs2 : CallState) :
    (((asr_turn_body env o uuid store2 cs2).store.lookup uuid)).map
      CallState.processing = some false := by
  by_cases hs : is_sentinel (determine_speech_text o) = true
  · rw [asr_turn_body_sentinel env uuid store2 cs2 hs]
    exact asr_sentinel_reply_store uuid _ _ _
  · rw [asr_turn_body_normal env uuid store2 cs2 (by simpa using hs)]
    exact asr_normal_turn_store env o uuid _ _ _ _

/-! ## Claim C2: the `processing` guard -/

/-- Claim C2: the processing flag is set before the turn pipeline and
every collaborator call (transcription, knowledge search, generation,
ticket operations) happens while it is true; the final stored session has
`processing = false`; an ASR webhook arriving while `processing` is true
is answered with an empty action list, with the store untouched and no
collaborator invoked; a finalized streaming utterance arriving while
`_processing_ai` is true returns without scheduling the pipeline; and the
streaming pipeline itself runs entirely under the flag and clears it at
the end. -/
theorem processing_flag_discipline
    (env : Env) (store0 : Store) (uuid : String) (o : AsrOracle) (cs0 : CallState)
    (h : store0.lookup uuid = some cs0) :
    (cs0.processing = true →
        handle_voice_asr env store0 uuid o = ⟨store0, AsrResponse.actions [], []⟩) ∧
    (cs0.processing = false →
        (∀ q ∈ (handle_voice_asr env store0 uuid o).trace, q.2 = true) ∧
        ((handle_voice_asr env store0 uuid o).store.lookup uuid).map CallState.processing
          = some false) ∧
    (∀ sys : StreamSys, sys.processing_ai = true → on_speech_ended sys = (sys, false)) ∧
    (∀ (so : StreamOracle) (sys : StreamSys) (st : Store) (cu : Option String) (t : String),
        sys.processing_ai = true →
        (∀ q ∈ (process_and_respond so sys st cu t).trace, q.2 = true) ∧
        (process_and_respond so sys st cu t).sys.processing_ai = false) := by
  refine ⟨?_, ?_, ?_, ?_⟩
  · intro hp
    unfold handle_voice_asr
    rw [get_call_state_found h]
    dsimp only
    rw [wait_lookup_loop_fixed 25 h]
    simp [call_state_falsy, hp]
  · intro hp
    rw [handle_voice_asr_admitted h hp]
    constructor
    · intro q hq
      exact asr_turn_body_trace env o uuid _ _ q hq
    · exact asr_turn_body_store env o uuid _ _
  · intro sys hp
    unfold on_speech_ended
    simp [hp]
  · intro so sys st cu t hp
    cases cu with
    | none => simp [process_and_respond]
    | some u =>
        unfold process_and_respond
        constructor
        · intro q hq
          rcases mem_ite_list hq with h1 | h1 <;> simp at h1
          · rcases h1 with rfl | rfl | rfl <;> exact hp
          · rcases h1 with rfl | rfl <;> exact hp
        · rfl


/-! ## Claim C3: ASR failure vs. silence -/

/-- Claim C3: a sentinel utterance (`[ASR_FAILED]`, `[ASR_ERROR]`,
`[NO_AUDIO]`) short-circuits to the fixed apology with a further listen
action, never invokes the generation collaborator, and resets
`processing`; the `[SILENCE]` sentinel produced by the noise filter
instead proceeds to the generation call. -/
theorem asr_failure_vs_silence
    (env : Env) (store0 : Store) (uuid : String) (o : AsrOracle) (cs0 : CallState)
    (h : store0.lookup uuid = some cs0) (hp : cs0.processing = false) :
    (is_sentinel (determine_speech_text o) = true →
      (handle_voice_asr env store0 uuid o).response =
        AsrResponse.actions [NccoAction.talk asr_apology true, NccoAction.input 15] ∧
      (∀ q ∈ (handle_voice_asr env store0 uuid o).trace, q.1.isLlmCall = false) ∧
      ((handle_voice_asr env store0 uuid o).store.lookup uuid).map CallState.processing
        = some false) ∧
    (is_sentinel (determine_speech_text o) = false →
      noise_filter (determine_speech_text o) = "[SILENCE]" →
      (Effect.llmCall "[SILENCE]" cs0.ticket_id cs0.contact_name, true) ∈
        (handle_voice_asr env store0 uuid o).trace) := by
  constructor
  · intro hs
    rw [handle_voice_asr_admitted h hp, asr_turn_body_sentinel env uuid _ _ hs]
    refine ⟨rfl, ?_, asr_sentinel_reply_store uuid _ _ _⟩
    unfold asr_sentinel_reply
    intro q hq
    dsimp only at hq
    split at hq
    · simp at hq
      simp [hq, Effect.isLlmCall]
    · simp at hq
  · intro hs hsil
    rw [handle_voice_asr_admitted h hp, asr_turn_body_normal env uuid _ _ hs,
      asr_normal_turn_trace_eq, ← hsil]
    exact asr_turn_pipe_llm env o uuid _ _ _ _

theorem asr_failure_vs_silence_witness :
    (([("w3", default_call_state)] : Store).lookup "w3" = some default_call_state) ∧
    ((handle_voice_asr ⟨none⟩ [("w3", default_call_state)] "w3"
        ⟨true, false, TranscribeOutcome.returns none, "", "ok", none⟩).response =
      AsrResponse.actions [NccoAction.talk asr_apology true, NccoAction.input 15]) ∧
    ((Effect.llmCall "[SILENCE]" default_call_state.ticket_id
        default_call_state.contact_name, true) ∈
      (handle_voice_asr ⟨none⟩ [("w3", default_call_state)] "w3"
        ⟨true, false, TranscribeOutcome.returns (some "uh"), "", "ok", none⟩).trace) :=
  ⟨by decide,
   ((asr_failure_vs_silence ⟨none⟩ [("w3", default_call_state)] "w3"
      ⟨true, false, TranscribeOutcome.returns none, "", "ok", none⟩ default_call_state
      (by decide) rfl).1 (by decide)).1,
   (asr_failure_vs_silence ⟨none⟩ [("w3", default_call_state)] "w3"
      ⟨true, false, TranscribeOutcome.returns (some "uh"), "", "ok", none⟩ default_call_state
      (by decide) rfl).2 (by decide) (by decide)⟩

/-! ## Claim C10: transfer takes precedence over hangup -/

/-- Claim C10: when a reply carries both a TRANSFER tag and a HANGUP tag,
the response is a talk action with barge-in disabled followed by a
connect action to the resolved target number — no hangup action and no
further input action — the session is marked `transfer_requested`, and
the HANGUP tag is silently ignored. -/
theorem transfer_overrides_hangup
    (env : Env) (store0 : Store) (uuid : String) (o : AsrOracle) (cs0 : CallState)
    (payload : Option String)
    (h : store0.lookup uuid = some cs0) (hp : cs0.processing = false)
    (hs : is_sentinel (determine_speech_text o) = false)
    (htr : (parse_reply_actions cs0.contact_id.isSome o.llm_reply).transfer = some payload)
    (_hhg : (parse_reply_actions cs0.contact_id.isSome o.llm_reply).should_hangup = true) :
    (handle_voice_asr env store0 uuid o).response =
      AsrResponse.actions
        [NccoAction.talk (parse_reply_actions cs0.contact_id.isSome o.llm_reply).cleaned false,
          NccoAction.connect (cs0.bot_number.getD (voice_agent_number env))
            (fmt_plus (resolve_transfer_target env payload))] ∧
    ((handle_voice_asr env store0 uuid o).store.lookup uuid).map CallState.transfer_requested
      = some (some true) := by
  rw [handle_voice_asr_admitted h hp, asr_turn_body_normal env uuid _ _ hs]
  exact asr_normal_turn_transfer env o uuid _ _ _ _ payload htr

theorem transfer_overrides_hangup_witness :
    (([("w10", default_call_state)] : Store).lookup "w10" = some default_call_state) ∧
    ((parse_reply_actions default_call_state.contact_id.isSome
        "Transferring you now. [ACTION: TRANSFER] [ACTION: HANGUP]").transfer = some none) ∧
    ((parse_reply_actions default_call_state.contact_id.isSome
        "Transferring you now. [ACTION: TRANSFER] [ACTION: HANGUP]").should_hangup = true) ∧
    ((handle_voice_asr ⟨none⟩ [("w10", default_call_state)] "w10"
        ⟨true, false, TranscribeOutcome.returns (some "agent please"), "",
          "Transferring you now. [ACTION: TRANSFER] [ACTION: HANGUP]", none⟩).response =
      AsrResponse.actions
        [NccoAction.talk (parse_reply_actions default_call_state.contact_id.isSome
            "Transferring you now. [ACTION: TRANSFER] [ACTION: HANGUP]").cleaned false,
          NccoAction.connect (default_call_state.bot_number.getD (voice_agent_number ⟨none⟩))
            (fmt_plus (resolve_transfer_target ⟨none⟩ none))]) :=
  ⟨by decide, by decide, by decide,
   (transfer_overrides_hangup ⟨none⟩ [("w10", default_call_state)] "w10"
      ⟨true, false, TranscribeOutcome.returns (some "agent please"), "",
        "Transferring you now. [ACTION: TRANSFER] [ACTION: HANGUP]", none⟩
      default_call_state none (by decide) rfl (by decide) (by decide) (by decide)).1⟩

/-! ## Claim C1: ticket deduplication -/

/-- Claim C1 as stated is false of the code: with ticket id "5" already
attached, a reply carrying a CREATE_TICKET tag invokes ticket creation
again and the attached id changes to the new result "9". -/
theorem ticket_dedup_cx :
    ((Effect.createTicket "net down", true) ∈
      (handle_voice_asr ⟨none⟩
        [("u1", { default_call_state with ticket_id := some "5" })] "u1"
        ⟨true, false, TranscribeOutcome.returns (some "my internet is down"), "KB",
          "Okay. [ACTION: CREATE_TICKET: net down]", some "9"⟩).trace) ∧
    ¬ (((handle_voice_asr ⟨none⟩
        [("u1", { default_call_state with ticket_id := some "5" })] "u1"
        ⟨true, false, TranscribeOutcome.returns (some "my internet is down"), "KB",
          "Okay. [ACTION: CREATE_TICKET: net down]", some "9"⟩).store.lookup "u1").map
        CallState.ticket_id = some (some "5")) := by decide

/-- Claim C1 (amended): the already-attached ticket id is surfaced as the
active ticket id on the generation call, but the dispatch code does not
gate CREATE_TICKET on it — a subsequent CREATE_TICKET tag invokes ticket
creation again and overwrites the session ticket id with the
collaborator result (deduplication is delegated to the generation
collaborator's instructions, not enforced here). -/
theorem ticket_create_not_gated
    (env : Env) (store0 : Store) (uuid : String) (o : AsrOracle) (cs0 : CallState)
    (t d : String)
    (h : store0.lookup uuid = some cs0) (hp : cs0.processing = false)
    (hs : is_sentinel (determine_speech_text o) = false)
    (ht : cs0.ticket_id = some t)
    (hd : (parse_reply_actions cs0.contact_id.isSome o.llm_reply).create_desc = some d)
    (hu : (parse_reply_actions cs0.contact_id.isSome o.llm_reply).use_id = none) :
    (Effect.llmCall (noise_filter (determine_speech_text o)) (some t) cs0.contact_name, true) ∈
      (handle_voice_asr env store0 uuid o).trace ∧
    (Effect.createTicket d, true) ∈ (handle_voice_asr env store0 uuid o).trace ∧
    ((handle_voice_asr env store0 uuid o).store.lookup uuid).map CallState.ticket_id
      = some o.create_ticket_result := by
  rw [handle_voice_asr_admitted h hp, asr_turn_body_normal env uuid _ _ hs]
  have hc := asr_normal_turn_create env o uuid
    (set_call_state (set_call_state store0 uuid { cs0 with processing := true }) uuid
      { { cs0 with processing := true } with
          history := (append_history_entry ({ cs0 with processing := true } : CallState).history
            ⟨"user", noise_filter (determine_speech_text o)⟩) })
    { { cs0 with processing := true } with
        history := (append_history_entry ({ cs0 with processing := true } : CallState).history
          ⟨"user", noise_filter (determine_speech_text o)⟩) }
    (if o.audio_present || o.recording_url_present then
      [(Effect.transcribeAudio, ({ cs0 with processing := true } : CallState).processing)] else [])
    (noise_filter (determine_speech_text o)) d hd hu
  refine ⟨?_, hc.1, hc.2⟩
  rw [asr_normal_turn_trace_eq, ← ht]
  exact asr_turn_pipe_llm env o uuid _ _ _ _

set_option maxHeartbeats 1600000 in
theorem ticket_create_not_gated_witness :
    (({ default_call_state with ticket_id := some "5" } : CallState).ticket_id = some "5") ∧
    ((Effect.createTicket "net down", true) ∈
      (handle_voice_asr ⟨none⟩
        [("u1", { default_call_state with ticket_id := some "5" })] "u1"
        ⟨true, false, TranscribeOutcome.returns (some "my internet is down"), "KB",
          "Okay. [ACTION: CREATE_TICKET: net down]", some "9"⟩).trace) ∧
    (((handle_voice_asr ⟨none⟩
        [("u1", { default_call_state with ticket_id := some "5" })] "u1"
        ⟨true, false, TranscribeOutcome.returns (some "my internet is down"), "KB",
          "Okay. [ACTION: CREATE_TICKET: net down]", some "9"⟩).store.lookup "u1").map
        CallState.ticket_id = some (some "9")) := by
  have happ := ticket_create_not_gated ⟨none⟩
    [("u1", { default_call_state with ticket_id := some "5" })] "u1"
    ⟨true, false, TranscribeOutcome.returns (some "my internet is down"), "KB",
      "Okay. [ACTION: CREATE_TICKET: net down]", some "9"⟩
    { default_call_state with ticket_id := some "5" } "5" "net down"
    (by decide) rfl (by decide) rfl (by decide) (by decide)
  exact ⟨by decide, happ.2.1, happ.2.2⟩

/-! ## Claim C7: unknown call id on the ASR webhook -/

/-- Claim C7 is contradicted by the code: an ASR webhook for a call id
with no session auto-creates a default session (`get_call_state` is
get-or-create, so the dict is never falsy and the handler's 404 branch is
dead) and runs the full turn pipeline instead of answering not-found. -/
theorem unknown_session_not_404 :
    (([] : Store).lookup "ghost" = none) ∧
    (handle_voice_asr ⟨none⟩ [] "ghost"
        ⟨true, false, TranscribeOutcome.returns (some "hello there"), "", "Hello.", none⟩).response ≠
      AsrResponse.notFound ∧
    ((handle_voice_asr ⟨none⟩ [] "ghost"
        ⟨true, false, TranscribeOutcome.returns (some "hello there"), "", "Hello.", none⟩).store.lookup
      "ghost") ≠ none := by decide


theorem processing_flag_discipline_witness :
    (([("w2", { default_call_state with processing := true })] : Store).lookup "w2" =
      some { default_call_state with processing := true }) ∧
    (handle_voice_asr ⟨none⟩ [("w2", { default_call_state with processing := true })] "w2"
        ⟨true, false, TranscribeOutcome.returns (some "hello there"), "", "Hi.", none⟩ =
      ⟨[("w2", { default_call_state with processing := true })], AsrResponse.actions [], []⟩) ∧
    (on_speech_ended ⟨true, true⟩ = (⟨true, true⟩, false)) ∧
    ((process_and_respond ⟨"Hi."⟩ ⟨true, true⟩ [] (some "w2") "hello").sys.processing_ai
      = false) :=
  ⟨by decide,
   (processing_flag_discipline ⟨none⟩ [("w2", { default_call_state with processing := true })]
      "w2" ⟨true, false, TranscribeOutcome.returns (some "hello there"), "", "Hi.", none⟩
      { default_call_state with processing := true } (by decide)).1 rfl,
   (processing_flag_discipline ⟨none⟩ [("w2", { default_call_state with processing := true })]
      "w2" ⟨true, false, TranscribeOutcome.returns (some "hello there"), "", "Hi.", none⟩
      { default_call_state with processing := true } (by decide)).2.2.1 ⟨true, true⟩ rfl,
   ((processing_flag_discipline ⟨none⟩ [("w2", { default_call_state with processing := true })]
      "w2" ⟨true, false, TranscribeOutcome.returns (some "hello there"), "", "Hi.", none⟩
      { default_call_state with processing := true } (by decide)).2.2.2 ⟨"Hi."⟩ ⟨true, true⟩
      [] (some "w2") "hello" rfl).2⟩

/-! ## Claim C4: streaming silence-timer semantics -/

/-- Claim C4: finals "I need" then "help" followed by timer expiry emit
exactly one utterance "I need help " and reset the accumulator (a second
expiry emits nothing); a non-blank interim result cancels any pending
silence timer without emitting; the timer callback emits nothing on an
empty accumulator; and on a non-empty accumulator it emits exactly the
accumulated text and clears it. -/
theorem streaming_silence_timer :
    (dg_run dg_initial [DGEvent.result "I need" true, DGEvent.result "help" true,
        DGEvent.timerElapse, DGEvent.timerElapse] =
      (⟨"", "I need help ", false⟩, ["I need help "])) ∧
    (∀ (st : DGState) (t : String), nonblank_transcript t = true →
      dg_step st (DGEvent.result t false) = ({ st with timerPending := false }, none)) ∧
    (∀ st : DGState, st.current_utterance = "" →
      (dg_step st DGEvent.timerElapse).2 = none) ∧
    (∀ st : DGState, st.timerPending = true → st.current_utterance ≠ "" →
      dg_step st DGEvent.timerElapse =
        ({ st with current_utterance := "", timerPending := false },
          some st.current_utterance)) := by
  refine ⟨by decide, ?_, ?_, ?_⟩
  · intro st t h
    unfold dg_step process_result
    simp [h]
  · intro st h
    unfold dg_step on_silence_detected
    by_cases hp : st.timerPending <;> simp [hp, h]
  · intro st hp hne
    unfold dg_step on_silence_detected
    simp [hp, hne]

theorem streaming_silence_timer_witness :
    (nonblank_transcript "hold on" = true) ∧
    (dg_step ⟨"I need ", "x", true⟩ (DGEvent.result "hold on" false) =
      (⟨"I need ", "x", false⟩, none)) ∧
    ((dg_step ⟨"", "y", true⟩ DGEvent.timerElapse).2 = none) ∧
    (dg_step ⟨"I need help ", "z", true⟩ DGEvent.timerElapse =
      (⟨"", "z", false⟩, some "I need help ")) :=
  ⟨by decide,
   streaming_silence_timer.2.1 ⟨"I need ", "x", true⟩ "hold on" (by decide),
   streaming_silence_timer.2.2.1 ⟨"", "y", true⟩ rfl,
   streaming_silence_timer.2.2.2 ⟨"I need help ", "z", true⟩ rfl (by decide)⟩

/-! ## Claim C6: isolation of background actions -/

/-- Claim C6 as stated is false of the code: the dispatch loop sits under
a single `try/except`, so the exception raised by `int("abc")` while
executing a RESOLVE_TICKET action prevents the following USE_TICKET
action from running (alone, that action would set the ticket id). -/
theorem action_isolation_cx :
    ((execute_ai_actions ⟨none⟩ ⟨none, none⟩ 10 "u1" default_call_state
        [("u1", default_call_state)] [("ACTION", "USE_TICKET: 7")]).1.ticket_id = some "7") ∧
    ((execute_ai_actions ⟨none⟩ ⟨none, none⟩ 10 "u1" default_call_state
        [("u1", default_call_state)]
        [("ACTION", "RESOLVE_TICKET: abc"), ("ACTION", "USE_TICKET: 7")]).1.ticket_id
      = none) := by decide

/-- Claim C6 (amended): one `try/except` wraps the whole dispatch loop,
so an exception raised while executing one action stops the loop — the
result is exactly the state and effects accumulated before the raising
tag, and the later tags never run.  (Each collaborator call catches its
own network errors internally; the raising statement is the `int(t_id)`
conversion of a non-numeric ticket id.) -/
theorem action_exception_aborts_rest
    (env : Env) (o : ExecOracle) (tl : Nat) (uuid : String)
    (cs : CallState) (store : Store) (pre : List (String × String))
    (bad : String × String) (post : List (String × String))
    (hpre : tags_succeed env o tl uuid cs store pre = true)
    (hbad : exec_one_tag env o tl uuid
        (execute_ai_actions env o tl uuid cs store pre).1
        (execute_ai_actions env o tl uuid cs store pre).2.1 bad = none) :
    execute_ai_actions env o tl uuid cs store (pre ++ bad :: post) =
      execute_ai_actions env o tl uuid cs store pre := by
  induction pre generalizing cs store with
  | nil =>
      simp only [execute_ai_actions] at hbad
      simp only [List.nil_append]
      unfold execute_ai_actions
      rw [hbad]
  | cons t ts ih =>
      unfold tags_succeed at hpre
      cases hexec : exec_one_tag env o tl uuid cs store t with
      | none =>
          rw [hexec] at hpre
          simp at hpre
      | some r =>
          obtain ⟨cs1, store1, effs⟩ := r
          rw [hexec] at hpre
          dsimp only at hpre
          have hbad1 : exec_one_tag env o tl uuid
              (execute_ai_actions env o tl uuid cs1 store1 ts).1
              (execute_ai_actions env o tl uuid cs1 store1 ts).2.1 bad = none := by
            simpa [execute_ai_actions, hexec] using hbad
          have hstep := ih cs1 store1 hpre hbad1
          simp only [List.cons_append]
          unfold execute_ai_actions
          rw [hexec]
          dsimp only
          rw [hstep]

theorem action_exception_aborts_rest_witness :
    (tags_succeed ⟨none⟩ ⟨none, none⟩ 10 "u1" default_call_state
      [("u1", default_call_state)] [("ACTION", "USE_TICKET: 3")] = true) ∧
    (exec_one_tag ⟨none⟩ ⟨none, none⟩ 10 "u1"
      (execute_ai_actions ⟨none⟩ ⟨none, none⟩ 10 "u1" default_call_state
        [("u1", default_call_state)] [("ACTION", "USE_TICKET: 3")]).1
      (execute_ai_actions ⟨none⟩ ⟨none, none⟩ 10 "u1" default_call_state
        [("u1", default_call_state)] [("ACTION", "USE_TICKET: 3")]).2.1
      ("ACTION", "RESOLVE_TICKET: abc") = none) ∧
    (execute_ai_actions ⟨none⟩ ⟨none, none⟩ 10 "u1" default_call_state
        [("u1", default_call_state)]
        ([("ACTION", "USE_TICKET: 3")] ++
          ("ACTION", "RESOLVE_TICKET: abc") :: [("ACTION", "UPDATE_NAME: Bob")]) =
      execute_ai_actions ⟨none⟩ ⟨none, none⟩ 10 "u1" default_call_state
        [("u1", default_call_state)] [("ACTION", "USE_TICKET: 3")]) :=
  ⟨by decide, by decide,
   action_exception_aborts_rest ⟨none⟩ ⟨none, none⟩ 10 "u1" default_call_state
     [("u1", default_call_state)] [("ACTION", "USE_TICKET: 3")]
     ("ACTION", "RESOLVE_TICKET: abc") [("ACTION", "UPDATE_NAME: Bob")]
     (by decide) (by decide)⟩


/-! ## Claim C9: UPDATE_NAME policy -/

/-- Claim C9 as stated is false of the streaming executor: with the
valid (non-placeholder) current name "Alice" attached, an
UPDATE_NAME(Bob) action still renames the contact and overwrites the
session name. -/
theorem update_name_guard_cx :
    ((execute_ai_actions ⟨none⟩ ⟨none, none⟩ 10 "u1"
        { default_call_state with contact_name := some "Alice", contact_id := some 1 }
        [("u1", { default_call_state with contact_name := some "Alice", contact_id := some 1 })]
        [("ACTION", "UPDATE_NAME: Bob")]).1.contact_name = some "Bob") ∧
    (Effect.renameContact 1 "Bob" ∈ (execute_ai_actions ⟨none⟩ ⟨none, none⟩ 10 "u1"
        { default_call_state with contact_name := some "Alice", contact_id := some 1 }
        [("u1", { default_call_state with contact_name := some "Alice", contact_id := some 1 })]
        [("ACTION", "UPDATE_NAME: Bob")]).2.2) := by decide

/-- Claim C9 (amended): the batch pipeline applies UPDATE_NAME only when
a contact id is present (the detection step is gated on it), the current
name is placeholder-like, and the new name passes the "unknown"/digits
check (an empty new name is not rejected by that check); in every other
case the step is the identity.  The streaming executor instead applies
UPDATE_NAME unconditionally, overwriting the session contact name with
the parsed payload. -/
theorem update_name_policy :
    (∀ (u : String) (pa : ParsedActions) (p : Pipe) (nm : String),
      pa.new_name = some nm →
      (is_placeholder_name p.cs.contact_name && accepts_new_name nm) = true →
      (step_update_name u pa p).cs.contact_name = some nm ∧
      (Effect.renameContact (p.cs.contact_id.getD 0) nm, p.cs.processing) ∈
        (step_update_name u pa p).trace) ∧
    (∀ (u : String) (pa : ParsedActions) (p : Pipe) (nm : String),
      pa.new_name = some nm →
      (is_placeholder_name p.cs.contact_name && accepts_new_name nm) = false →
      step_update_name u pa p = p) ∧
    (∀ r : String, (parse_reply_actions false r).new_name = none) ∧
    (∀ (env : Env) (o : ExecOracle) (tl : Nat) (uuid : String) (cs : CallState)
        (store : Store) (content : String),
      tag_cmd content = "UPDATE_NAME" →
      ((exec_one_tag env o tl uuid cs store ("ACTION", content)).map
        (fun r => r.1.contact_name)) = some (some ((tag_arg1 content).getD "Unknown"))) := by
  refine ⟨?_, ?_, ?_, ?_⟩
  · intro u pa p nm hnm hg
    unfold step_update_name
    rw [hnm]
    simp [hg]
  · intro u pa p nm hnm hg
    unfold step_update_name
    rw [hnm]
    simp [hg]
  · intro r
    rfl
  · intro env o tl uuid cs store content hc
    unfold exec_one_tag
    dsimp only
    rw [hc]
    simp only [String.reduceEq, reduceIte, if_false]
    cases hcid : cs.contact_id with
    | some cid => rfl
    | none =>
        cases hf : cs.from_number with
        | none => rfl
        | some p =>
            by_cases hp : p = ""
            · simp [hp]
            · simp only [hp, if_neg]
              cases o.create_contact <;> rfl

theorem update_name_policy_witness :
    (({ cleaned := "", sentiment := none, create_desc := none, use_id := none,
        resolve_id := none, new_name := some "Bob", should_hangup := false,
        should_wait := false, transfer := none } : ParsedActions).new_name = some "Bob") ∧
    ((is_placeholder_name (some "+14045550000") && accepts_new_name "Bob") = true) ∧
    ((step_update_name "u1"
        { cleaned := "", sentiment := none, create_desc := none, use_id := none,
          resolve_id := none, new_name := some "Bob", should_hangup := false,
          should_wait := false, transfer := none }
        ⟨{ default_call_state with contact_name := some "+14045550000", contact_id := some 42 },
          [], []⟩).cs.contact_name = some "Bob") ∧
    (tag_cmd "UPDATE_NAME: Bob" = "UPDATE_NAME") ∧
    (((exec_one_tag ⟨none⟩ ⟨none, none⟩ 10 "u1" default_call_state []
        ("ACTION", "UPDATE_NAME: Bob")).map (fun r => r.1.contact_name)) =
      some (some ((tag_arg1 "UPDATE_NAME: Bob").getD "Unknown"))) :=
  ⟨rfl, by decide,
   (update_name_policy.1 "u1"
      { cleaned := "", sentiment := none, create_desc := none, use_id := none,
        resolve_id := none, new_name := some "Bob", should_hangup := false,
        should_wait := false, transfer := none }
      ⟨{ default_call_state with contact_name := some "+14045550000", contact_id := some 42 },
        [], []⟩ "Bob" rfl (by decide)).1,
   by decide,
   update_name_policy.2.2.2 ⟨none⟩ ⟨none, none⟩ 10 "u1" default_call_state []
     "UPDATE_NAME: Bob" (by decide)⟩

/-! ## Claim C8: placeholder contact names -/

/-- Claim C8 as stated is false on the generation path: the sanitizer in
`agent_response` only replaces letterless names, so the literal name
"unknown" is injected into the prompt verbatim rather than treated as
absent or replaced by the "Unknown" placeholder. -/
theorem placeholder_name_cx :
    ¬ (customer_info_name (some "unknown") = none ∨
       customer_info_name (some "unknown") = some "Unknown") := by decide

/-- Claim C8 (amended): letterless (purely numeric) names and names equal
to "unknown" case-insensitively never personalize the greeting, and the
background lookup stores such names as absent; the generation-call
sanitizer replaces non-empty letterless names with the placeholder
"Unknown" but passes a literally spelled "unknown" name through to the
prompt unchanged. -/
theorem placeholder_name_treatment :
    (∀ n : String, has_letter n = false → answer_greeting (some n) = generic_greeting) ∧
    (∀ n : String, ascii_lower n = "unknown" → answer_greeting (some n) = generic_greeting) ∧
    (∀ n : String, n ≠ "" → has_letter n = false →
      customer_info_name (some n) = some "Unknown") ∧
    (∀ n : String, has_letter n = false → background_lookup_contact_name (some n) = none) ∧
    (∀ n : String, ascii_lower n = "unknown" → background_lookup_contact_name (some n) = none) ∧
    (customer_info_name (some "unknown") = some "unknown") := by
  refine ⟨?_, ?_, ?_, ?_, ?_, by decide⟩
  · intro n h
    unfold answer_greeting generic_greeting
    simp [h]
  · intro n h
    unfold answer_greeting generic_greeting
    simp [h]
  · intro n hne h
    unfold customer_info_name sanitize_display_name
    simp [hne, h]
  · intro n h
    unfold background_lookup_contact_name
    simp [h]
  · intro n h
    unfold background_lookup_contact_name
    simp [h]

theorem placeholder_name_treatment_witness :
    (has_letter "12345" = false) ∧
    (answer_greeting (some "12345") = generic_greeting) ∧
    (customer_info_name (some "12345") = some "Unknown") ∧
    (ascii_lower "UNKNOWN" = "unknown") ∧
    (answer_greeting (some "UNKNOWN") = generic_greeting) ∧
    (background_lookup_contact_name (some "UNKNOWN") = none) :=
  ⟨by decide,
   placeholder_name_treatment.1 "12345" (by decide),
   placeholder_name_treatment.2.2.1 "12345" (by decide) (by decide),
   by decide,
   placeholder_name_treatment.2.1 "UNKNOWN" (by decide),
   placeholder_name_treatment.2.2.2.2.1 "UNKNOWN" (by decide)⟩

end SandezaVoice
